import Mathlib

/-!
Verification of the core algorithmic components of the artemis-insight backend:
vector search (app/services/embedding_service.py), semantic chunking
(app/services/pdf_processor.py), section synthesis with retry/backoff
(app/services/processing_engine.py), and the stuck-job sweep
(app/utils/task_monitor.py).

Every definition below is a shallow embedding of the corresponding Python
function, translated line by line from the source.  External effects
(the OpenAI API, MongoDB reads and writes, the clock) are made explicit:
provider calls become function parameters, the embeddings and jobs
collections become lists passed in and returned, and the current time is an
explicit parameter.  Logging statements are omitted; they do not affect any
modelled value.
-/

/-! ## Part 1: cosine similarity and vector search (embedding_service.py) -/

/-- Embedding of `cosine_similarity` (embedding_service.py, lines 26-52).
Machine floats are modelled by exact reals: dot product over `zipWith`,
magnitudes via `Real.sqrt`, a guard returning 0 when either magnitude is 0,
and the final clamp `max(0.0, min(1.0, similarity))`. -/
noncomputable def cosine_similarity (vec1 vec2 : List ℝ) : ℝ :=
  let dot_product := (List.zipWith (fun a b => a * b) vec1 vec2).sum
  let magnitude1 := Real.sqrt ((vec1.map (fun a => a * a)).sum)
  let magnitude2 := Real.sqrt ((vec2.map (fun b => b * b)).sum)
  if magnitude1 = 0 ∨ magnitude2 = 0 then 0
  else max 0 (min 1 (dot_product / (magnitude1 * magnitude2)))

/-- One persisted document of the `embeddings` collection, as written by
`generate_embeddings_for_chunks` (embedding_service.py, lines 165-176).
ObjectIds are modelled by naturals. -/
structure EmbeddingRecord where
  id : ℕ
  document_id : ℕ
  chunk_index : ℕ
  chunk_text : String
  embedding_vector : List ℝ
  page_number : ℤ
  section_heading : Option String
  word_count : ℕ

/-- Embedding of `EmbeddingSearchQuery` (models/embedding.py).  The pydantic
model constrains `top_k` with `ge=1, le=100`, so it is a natural here; the
`query_text` branch (which first calls the embedding API) always proceeds with
the vector it obtains, so the query is modelled by that vector. -/
structure EmbeddingSearchQuery where
  query_vector : List ℝ
  document_id : Option ℕ
  top_k : ℕ
  min_similarity : ℝ

/-- Embedding of `EmbeddingSearchResult`: the dict pushed per hit in
`search_similar_chunks` (embedding_service.py, lines 231-240). -/
structure EmbeddingSearchResult where
  embedding_id : ℕ
  document_id : ℕ
  chunk_index : ℕ
  chunk_text : String
  page_number : ℤ
  section_heading : Option String
  word_count : ℕ
  similarity_score : ℝ

/-- The MongoDB filter built in `search_similar_chunks` (lines 216-218):
empty when the query has no `document_id`, an id equality otherwise. -/
def matchesMongoQuery (query : EmbeddingSearchQuery) (emb : EmbeddingRecord) : Bool :=
  match query.document_id with
  | none => true
  | some d => emb.document_id == d

/-- The scan loop of `search_similar_chunks` (lines 226-240): for every
fetched record compute the cosine similarity against the query vector and
keep the hit exactly when `similarity >= query.min_similarity`. -/
noncomputable def scanHits (query : EmbeddingSearchQuery) (store : List EmbeddingRecord) :
    List EmbeddingSearchResult :=
  (store.filter (matchesMongoQuery query)).filterMap (fun emb =>
    let similarity := cosine_similarity query.query_vector emb.embedding_vector
    if query.min_similarity ≤ similarity then
      some { embedding_id := emb.id
             document_id := emb.document_id
             chunk_index := emb.chunk_index
             chunk_text := emb.chunk_text
             page_number := emb.page_number
             section_heading := emb.section_heading
             word_count := emb.word_count
             similarity_score := similarity }
    else none)

/-- Insertion step of the stable descending sort below: a new element is
placed before the first element whose key is not larger. -/
noncomputable def insertBySimilarityDesc (a : EmbeddingSearchResult) :
    List EmbeddingSearchResult → List EmbeddingSearchResult
  | [] => [a]
  | b :: rest =>
      if b.similarity_score ≤ a.similarity_score then a :: b :: rest
      else b :: insertBySimilarityDesc a rest

/-- Embedding of `results.sort(key=lambda x: x["similarity_score"], reverse=True)`
(embedding_service.py, line 243).  Python's sort is stable also under
`reverse=True`: elements with equal keys keep their original relative order.
A stable sort by a total key is unique as a function, so this stable
insertion sort computes exactly the same list. -/
noncomputable def sortBySimilarityDesc :
    List EmbeddingSearchResult → List EmbeddingSearchResult
  | [] => []
  | a :: rest => insertBySimilarityDesc a (sortBySimilarityDesc rest)

/-- Embedding of `search_similar_chunks` (embedding_service.py, lines 188-246):
fetch the records matching the Mongo filter, compute similarities and apply
the `min_similarity` threshold, sort by similarity descending (stable), and
truncate to `top_k` (`results[:query.top_k]`). -/
noncomputable def search_similar_chunks (query : EmbeddingSearchQuery)
    (store : List EmbeddingRecord) : List EmbeddingSearchResult :=
  (sortBySimilarityDesc (scanHits query store)).take query.top_k

/-! ## Part 2: semantic chunking (pdf_processor.py) -/

/-- Accumulator loop for `pySplit`: walk the characters, collecting the
current word (in reverse) and emitting it at every whitespace run or at the
end. -/
def pySplitAux : List Char → List Char → List String
  | [], acc => if acc.isEmpty then [] else [String.mk acc.reverse]
  | c :: rest, acc =>
      if c.isWhitespace then
        if acc.isEmpty then pySplitAux rest []
        else String.mk acc.reverse :: pySplitAux rest []
      else pySplitAux rest (c :: acc)

/-- Python's `str.split()` with no separator argument: split on runs of
whitespace, producing no empty tokens (leading and trailing whitespace
included). -/
def pySplit (s : String) : List String := pySplitAux s.data []

/-- Embedding of the `DocumentChunk` class (pdf_processor.py, lines 20-51). -/
structure DocumentChunk where
  text : String
  chunk_index : ℕ
  page_number : ℕ
  start_char : ℕ
  end_char : ℕ
  section_heading : Option String
  word_count : ℕ
deriving Repr, DecidableEq

/-- The `DocumentChunk.__init__` body: `self.word_count = word_count or
len(text.split())`, i.e. a falsy (zero) `word_count` argument is replaced by
the word count of the text. -/
def mkDocumentChunk (text : String) (chunk_index : ℕ) (page_number : ℕ)
    (start_char end_char : ℕ) (section_heading : Option String)
    (word_count : ℕ) : DocumentChunk :=
  { text := text
    chunk_index := chunk_index
    page_number := page_number
    start_char := start_char
    end_char := end_char
    section_heading := section_heading
    word_count := if word_count = 0 then (pySplit text).length else word_count }

/-- One entry of `extracted_data["pages"]` as produced by
`extract_text_from_pdf` (pdf_processor.py, lines 121-126). -/
structure PageData where
  page_number : ℕ
  text : String
deriving Repr, DecidableEq

/-- The part of `extract_text_from_pdf`'s result dict that
`create_semantic_chunks` reads: `full_text`, `pages` and `total_pages`. -/
structure ExtractedData where
  full_text : String
  pages : List PageData
  total_pages : ℕ
deriving Repr, DecidableEq

/-- The constructor parameters of `PDFProcessor` (pdf_processor.py,
lines 57-73). -/
structure ChunkParams where
  chunk_size : ℕ
  overlap : ℕ
  min_chunk_size : ℕ
deriving Repr, DecidableEq

/-- Accumulator form of `_build_page_positions` (pdf_processor.py,
lines 319-347): each page occupies `len(page_text) + 2` characters
(the `+2` being the two-character page separator). -/
def buildPagePositionsAux : List PageData → ℕ → List (ℕ × ℕ × ℕ)
  | [], _ => []
  | page :: rest, char_pos =>
      (page.page_number, char_pos, char_pos + (page.text.length + 2)) ::
        buildPagePositionsAux rest (char_pos + (page.text.length + 2))

/-- Embedding of `_build_page_positions`. -/
def build_page_positions (pages : List PageData) : List (ℕ × ℕ × ℕ) :=
  buildPagePositionsAux pages 0

/-- Embedding of `_get_page_at_position` (pdf_processor.py, lines 349-369):
first interval containing the position, else the last interval's page,
else 1. -/
def get_page_at_position (position : ℕ) (page_positions : List (ℕ × ℕ × ℕ)) : ℕ :=
  match page_positions.find? (fun t => decide (t.2.1 ≤ position) && decide (position < t.2.2)) with
  | some t => t.1
  | none =>
      match page_positions.getLast? with
      | some t => t.1
      | none => 1

/-- Loop of `_get_heading_at_position` (pdf_processor.py, lines 371-394):
keep the most recent heading whose offset is at most the position and stop
at the first heading beyond it. -/
def getHeadingAux (position : ℕ) : List (String × ℕ) → Option String → Option String
  | [], current => current
  | (h, hpos) :: rest, current =>
      if hpos ≤ position then getHeadingAux position rest (some h) else current

/-- Embedding of `_get_heading_at_position`. -/
def get_heading_at_position (position : ℕ) (headings : List (String × ℕ)) :
    Option String :=
  getHeadingAux position headings none

/-- The `while word_index < total_words` loop of `create_semantic_chunks`
(pdf_processor.py, lines 253-297), fuel-indexed.  Per iteration: slice the
next window of `chunk_size` words, stop when the window is smaller than
`min_chunk_size` and is not the first chunk, otherwise emit a chunk whose
approximate char offset is `word_index * 6`, whose page is the page at that
offset clamped into `[1, total_pages]`, and advance by
`chunk_size - overlap` words (full window at the end or when overlap is 0).
Whenever the Python loop terminates, fuel `total_words + 1` is enough to
reach the same result, since every step advances `word_index` by at least 1. -/
def chunkLoop (params : ChunkParams) (all_words : List String)
    (page_positions : List (ℕ × ℕ × ℕ)) (headings : List (String × ℕ))
    (total_pages : ℕ) : ℕ → ℕ → ℕ → List DocumentChunk
  | 0, _, _ => []
  | fuel + 1, word_index, chunk_index =>
      if word_index < all_words.length then
        let chunk_words := (all_words.drop word_index).take params.chunk_size
        if chunk_words.length < params.min_chunk_size ∧ 0 < word_index then []
        else
          let chunk_text := String.intercalate " " chunk_words
          let approx_char_position := word_index * 6
          let current_page :=
            max 1 (min (get_page_at_position approx_char_position page_positions) total_pages)
          let chunk := mkDocumentChunk chunk_text chunk_index current_page
            approx_char_position (approx_char_position + chunk_text.length)
            (get_heading_at_position approx_char_position headings)
            chunk_words.length
          let next_index :=
            if 0 < params.overlap ∧ word_index + params.chunk_size < all_words.length then
              word_index + (params.chunk_size - params.overlap)
            else word_index + params.chunk_size
          chunk :: chunkLoop params all_words page_positions headings total_pages
            fuel next_index (chunk_index + 1)
      else []

/-- Embedding of `create_semantic_chunks` (pdf_processor.py, lines 211-300).
The `headings` parameter stands for the result of
`self.detect_headings(full_text)`; heading detection itself is a triple of
regular expressions whose output only populates `section_heading`, a field no
verified property inspects, so it is kept as an input here while the
heading lookup per chunk is modelled in full. -/
def create_semantic_chunks (params : ChunkParams) (headings : List (String × ℕ))
    (extracted : ExtractedData) : List DocumentChunk :=
  let all_words := pySplit extracted.full_text
  let page_positions := build_page_positions extracted.pages
  chunkLoop params all_words page_positions headings extracted.total_pages
    (all_words.length + 1) 0 0

/-- Total words of the chunk list, the quantity bounded by the coverage
properties. -/
def sumWordCounts (chunks : List DocumentChunk) : ℕ :=
  (chunks.map (fun c => c.word_count)).sum

/-! ## Part 3: section synthesis with retry/backoff (processing_engine.py) -/

/-- Retry configuration of `ProcessingEngine` (processing_engine.py,
lines 33-34). -/
def MAX_RETRIES : ℕ := 3

/-- Exponential backoff base, in seconds. -/
def RETRY_DELAY_BASE : ℕ := 2

/-- Embedding of `TemplateSection` (models/template.py) as read by the
synthesis pass. -/
structure TemplateSection where
  title : String
  guidance_prompt : String
  order : ℕ

/-- One relevant-chunk dict as produced by `_pass_2_query_relevant_chunks`
(processing_engine.py, lines 260-270). -/
structure RelevantChunk where
  chunk_text : String
  chunk_index : ℕ
  page_number : ℤ
  section_heading : Option String
  word_count : ℕ
  similarity_score : ℝ

/-- Outcome of one `chat.completions.create` call, matching the exception
classes the code catches: `APITimeoutError`, `RateLimitError`, `APIError`,
and the bare `except Exception` arm. -/
inductive CompletionResult where
  | success (content : String)
  | timeoutError
  | rateLimitError
  | apiError (msg : String)
  | unexpectedError (msg : String)

/-- Visible behaviour of one `_pass_3_synthesize_section` run: the returned
content or the raised error message, the number of completion calls issued,
and the seconds slept between attempts, in order. -/
structure SynthOutcome where
  result : Except String String
  attempts : ℕ
  sleeps : List ℕ

/-- The `for attempt in range(1, MAX_RETRIES + 1)` retry loop of
`_pass_3_synthesize_section` (processing_engine.py, lines 330-377).
The provider is a function from the attempt number to the call's outcome.
On a transient failure before the last attempt the loop sleeps
`RETRY_DELAY_BASE ** attempt` seconds (timeout, `APIError`, unexpected) or
`RETRY_DELAY_BASE ** (attempt + 1)` seconds (rate limit) and retries; on the
last attempt each arm raises its own typed message.  Fuel `MAX_RETRIES`
covers the whole range. -/
def synthRetryLoop (provider : ℕ → CompletionResult) : ℕ → ℕ → SynthOutcome
  | 0, _ =>
      { result := Except.error "Failed to synthesize section after maximum retries"
        attempts := 0
        sleeps := [] }
  | fuel + 1, attempt =>
      match provider attempt with
      | CompletionResult.success content =>
          { result := Except.ok content, attempts := 1, sleeps := [] }
      | CompletionResult.timeoutError =>
          if attempt = MAX_RETRIES then
            { result := Except.error ("OpenAI API timeout after " ++ toString MAX_RETRIES ++ " attempts. Please try again later.")
              attempts := 1
              sleeps := [] }
          else
            let rest := synthRetryLoop provider fuel (attempt + 1)
            { result := rest.result
              attempts := rest.attempts + 1
              sleeps := RETRY_DELAY_BASE ^ attempt :: rest.sleeps }
      | CompletionResult.rateLimitError =>
          if attempt = MAX_RETRIES then
            { result := Except.error "OpenAI rate limit exceeded. Please wait a few minutes and try again."
              attempts := 1
              sleeps := [] }
          else
            let rest := synthRetryLoop provider fuel (attempt + 1)
            { result := rest.result
              attempts := rest.attempts + 1
              sleeps := RETRY_DELAY_BASE ^ (attempt + 1) :: rest.sleeps }
      | CompletionResult.apiError msg =>
          if attempt = MAX_RETRIES then
            { result := Except.error ("OpenAI API error: " ++ msg)
              attempts := 1
              sleeps := [] }
          else
            let rest := synthRetryLoop provider fuel (attempt + 1)
            { result := rest.result
              attempts := rest.attempts + 1
              sleeps := RETRY_DELAY_BASE ^ attempt :: rest.sleeps }
      | CompletionResult.unexpectedError msg =>
          if attempt = MAX_RETRIES then
            { result := Except.error msg, attempts := 1, sleeps := [] }
          else
            let rest := synthRetryLoop provider fuel (attempt + 1)
            { result := rest.result
              attempts := rest.attempts + 1
              sleeps := RETRY_DELAY_BASE ^ attempt :: rest.sleeps }

/-- Embedding of `_pass_3_synthesize_section` (processing_engine.py,
lines 277-377).  With no relevant chunks the function returns the fixed
fallback string naming the section and never touches the provider
(lines 293-295); otherwise it assembles the synthesis prompt from the top 15
chunks (pure string formatting, identical on every attempt, so the provider
is modelled as a function of the attempt number alone) and enters the retry
loop starting at attempt 1. -/
def pass_3_synthesize_section (sec : TemplateSection)
    (relevant_chunks : List RelevantChunk)
    (provider : ℕ → CompletionResult) : SynthOutcome :=
  if relevant_chunks.isEmpty then
    { result := Except.ok ("No relevant content found for section: " ++ sec.title)
      attempts := 0
      sleeps := [] }
  else synthRetryLoop provider MAX_RETRIES 1

/-! ## Part 4: stuck-job detection and remediation (task_monitor.py) -/

/-- Embedding of `JobStatus` (models/job.py). -/
inductive JobStatus where
  | pending
  | running
  | completed
  | failed
  | cancelled
deriving DecidableEq, Repr

/-- One document of the `jobs` collection, restricted to the fields the
monitor reads or writes.  Timestamps are integers (an absolute time scale in
minutes); ObjectIds are naturals. -/
structure Job where
  id : ℕ
  status : JobStatus
  updated_at : ℤ
  error_message : Option String := none
  completed_at : Option ℤ := none
deriving DecidableEq, Repr

/-- One document of the `summaries` collection, restricted to the fields the
monitor writes. -/
structure SummaryRecord where
  job_id : ℕ
  status : String
  error_message : Option String := none
  completed_at : Option ℤ := none
  updated_at : Option ℤ := none
deriving DecidableEq, Repr

/-- The Mongo filter of `detect_stuck_jobs` (task_monitor.py, lines 29-32):
status in {PENDING, RUNNING} and `updated_at` strictly before
`now - timeout_minutes` (the `$lt` operator). -/
def isStuck (now timeout_minutes : ℤ) (job : Job) : Bool :=
  (job.status == JobStatus.pending || job.status == JobStatus.running) &&
    decide (job.updated_at < now - timeout_minutes)

/-- Embedding of `detect_stuck_jobs` (task_monitor.py, lines 13-42): the
matching jobs are materialised with `to_list(length=100)`, so at most the
first 100 matches are returned, as ids. -/
def detect_stuck_jobs (now timeout_minutes : ℤ) (jobs : List Job) : List ℕ :=
  ((jobs.filter (isStuck now timeout_minutes)).take 100).map (fun j => j.id)

/-- The per-job effect of the `db.jobs.update_many` call of
`auto_fail_stuck_jobs` (task_monitor.py, lines 66-76): a job whose `_id` is
among the detected ids is set to FAILED with the explanatory timeout message
and `completed_at`/`updated_at` set to now; any other job is untouched. -/
def failJobUpdate (now timeout_minutes : ℤ) (stuck_job_ids : List ℕ) (j : Job) : Job :=
  if stuck_job_ids.contains j.id then
    { j with
        status := JobStatus.failed
        error_message := some ("Job timed out (no progress for >" ++ toString timeout_minutes ++ " minutes). Please try again.")
        completed_at := some now
        updated_at := now }
  else j

/-- The per-record effect of the `db.summaries.update_many` call of
`auto_fail_stuck_jobs` (task_monitor.py, lines 79-89). -/
def failSummaryUpdate (now : ℤ) (stuck_job_ids : List ℕ) (s : SummaryRecord) :
    SummaryRecord :=
  if stuck_job_ids.contains s.job_id then
    { s with
        status := "failed"
        error_message := some "Processing timeout - task did not complete within expected timeframe"
        completed_at := some now
        updated_at := some now }
  else s

/-- Embedding of `auto_fail_stuck_jobs` (task_monitor.py, lines 45-93):
detect, then bulk-update the detected jobs to FAILED and mark the summaries
of those jobs failed, returning `update_many`'s modified count (every
matched job is modified, since its status changes) together with the
written stores. -/
def auto_fail_stuck_jobs (now timeout_minutes : ℤ) (jobs : List Job)
    (summaries : List SummaryRecord) : ℕ × List Job × List SummaryRecord :=
  let stuck_job_ids := detect_stuck_jobs now timeout_minutes jobs
  if stuck_job_ids.isEmpty then (0, jobs, summaries)
  else
    ((jobs.filter (fun j => stuck_job_ids.contains j.id)).length,
      jobs.map (failJobUpdate now timeout_minutes stuck_job_ids),
      summaries.map (failSummaryUpdate now stuck_job_ids))

/-! ## Part 5: embedding generation (embedding_service.py) -/

/-- Visible behaviour of one `generate_embeddings_for_chunks` run: the
returned embedding ids or the raised error message, the number of embedding
API calls issued, and the number of documents inserted into the database. -/
structure EmbedRunOutcome where
  result : Except String (List ℕ)
  api_calls : ℕ
  inserted : ℕ

/-- The `for batch_num, i in enumerate(range(0, len(chunks), batch_size), 1)`
loop of `generate_embeddings_for_chunks` (embedding_service.py,
lines 153-183), fuel-indexed.  Each batch of up to `batch_size` chunks is
embedded by one provider call (`generate_embeddings_batch`, which raises
`ValueError` when the batch exceeds 100 texts), zipped with the returned
vectors and bulk-inserted; inserted ids are modelled as consecutive naturals
from `next_id`.  Fuel `chunks.length + 1` suffices whenever
`batch_size ≥ 1`. -/
def embedBatchLoop (provider : List String → List (List ℝ)) (batch_size : ℕ) :
    ℕ → List DocumentChunk → ℕ → EmbedRunOutcome
  | 0, _, _ => { result := Except.error "out of fuel", api_calls := 0, inserted := 0 }
  | _, [], _ => { result := Except.ok [], api_calls := 0, inserted := 0 }
  | fuel + 1, chunk :: restChunks, next_id =>
      let batch := (chunk :: restChunks).take batch_size
      let batch_texts := batch.map (fun c => c.text)
      if 100 < batch.length then
        { result := Except.error ("Batch size " ++ toString batch.length ++ " exceeds maximum 100")
          api_calls := 0
          inserted := 0 }
      else
        let embeddings := provider batch_texts
        let inserted_now := (List.zip batch embeddings).length
        let restOutcome := embedBatchLoop provider batch_size fuel
          ((chunk :: restChunks).drop batch_size) (next_id + inserted_now)
        { result :=
            match restOutcome.result with
            | Except.ok ids => Except.ok (List.range' next_id inserted_now ++ ids)
            | Except.error e => Except.error e
          api_calls := restOutcome.api_calls + 1
          inserted := restOutcome.inserted + inserted_now }

/-- Embedding of `generate_embeddings_for_chunks` (embedding_service.py,
lines 119-186).  An empty chunk list raises
`ValueError("Cannot generate embeddings for empty chunks list")` before any
provider call or insert (lines 142-143); otherwise
`batch_size = batch_size or self.batch_size` (a falsy 0 argument becomes the
default 100) and the batch loop runs. -/
def generate_embeddings_for_chunks (provider : List String → List (List ℝ))
    (chunks : List DocumentChunk) (batch_size : ℕ) : EmbedRunOutcome :=
  if chunks.isEmpty then
    { result := Except.error "Cannot generate embeddings for empty chunks list"
      api_calls := 0
      inserted := 0 }
  else
    let bs := if batch_size = 0 then 100 else batch_size
    embedBatchLoop provider bs (chunks.length + 1) chunks 0

/-! ## Concrete instances used by witnesses and counterexamples -/

/-- A search query with no document filter, `top_k = 20` and
`min_similarity = 0.3` (the values the processing engine uses). -/
noncomputable def qTie : EmbeddingSearchQuery :=
  { query_vector := [1], document_id := none, top_k := 20, min_similarity := 0.3 }

/-- A stored embedding with chunk index 5. -/
noncomputable def recTieA : EmbeddingRecord :=
  { id := 10, document_id := 7, chunk_index := 5, chunk_text := "alpha"
    embedding_vector := [1], page_number := 1, section_heading := none, word_count := 1 }

/-- A stored embedding with chunk index 2 and the same vector as `recTieA`. -/
noncomputable def recTieB : EmbeddingRecord :=
  { id := 11, document_id := 7, chunk_index := 2, chunk_text := "beta"
    embedding_vector := [1], page_number := 1, section_heading := none, word_count := 1 }

/-- A 12-word document extracted over two pages. -/
def docTwoPages : ExtractedData :=
  { full_text := "a b c d e f g h i j k l"
    pages := [{ page_number := 1, text := "a b c d e f" }, { page_number := 2, text := "g h i j k l" }]
    total_pages := 2 }

/-- A 6-word single-page document. -/
def docSixWords : ExtractedData :=
  { full_text := "a b c d e f"
    pages := [{ page_number := 1, text := "a b c d e f" }]
    total_pages := 1 }

/-- A 10-word single-page document. -/
def docTenWords : ExtractedData :=
  { full_text := "a b c d e f g h i j"
    pages := [{ page_number := 1, text := "a b c d e f g h i j" }]
    total_pages := 1 }

/-- A template section used to exercise the synthesis pass. -/
def secExample : TemplateSection :=
  { title := "Key Findings", guidance_prompt := "Summarize the key findings", order := 1 }

/-- A single relevant chunk, so that the retry loop is reached. -/
noncomputable def hitExample : RelevantChunk :=
  { chunk_text := "some content", chunk_index := 0, page_number := 1
    section_heading := none, word_count := 2, similarity_score := 1 }

/-- A running job whose last update is exactly `timeout_minutes` = 60 minutes
before the sweep time 60. -/
def jobSixty : Job := { id := 1, status := JobStatus.running, updated_at := 0 }

/-- A two-job store: one stale running job, one completed job. -/
def jobsMixed : List Job :=
  [{ id := 1, status := JobStatus.running, updated_at := 0 },
   { id := 2, status := JobStatus.completed, updated_at := 0 }]

/-- 101 running jobs, all stale at sweep time 200 with a 60-minute timeout:
one more than the detection query's `to_list(length=100)` cap. -/
def jobs101 : List Job :=
  (List.range 101).map (fun i => { id := i, status := JobStatus.running, updated_at := 0 })

/-- The first sweep over `jobs101`. -/
def firstSweep101 : ℕ × List Job × List SummaryRecord :=
  auto_fail_stuck_jobs 200 60 jobs101 []

/-! ## Helper lemmas -/

/-- Unfolding lemma for `cosine_similarity`. -/
theorem cosine_similarity_def (vec1 vec2 : List ℝ) :
    cosine_similarity vec1 vec2 =
      if Real.sqrt ((vec1.map (fun a => a * a)).sum) = 0 ∨
          Real.sqrt ((vec2.map (fun b => b * b)).sum) = 0 then 0
      else max 0 (min 1 ((List.zipWith (fun a b => a * b) vec1 vec2).sum /
        (Real.sqrt ((vec1.map (fun a => a * a)).sum) *
          Real.sqrt ((vec2.map (fun b => b * b)).sum)))) := rfl

/-- The similarity of the one-entry unit vectors is exactly 1. -/
theorem cosine_one_one : cosine_similarity [(1 : ℝ)] [(1 : ℝ)] = 1 := by
  rw [cosine_similarity_def]
  norm_num

/-- Membership in the insertion step. -/
theorem mem_insertBySimilarityDesc (a x : EmbeddingSearchResult) :
    ∀ l : List EmbeddingSearchResult,
      (x ∈ insertBySimilarityDesc a l ↔ x = a ∨ x ∈ l)
  | [] => by simp [insertBySimilarityDesc]
  | b :: rest => by
      rw [insertBySimilarityDesc]
      split
      · simp [List.mem_cons]
      · rw [List.mem_cons, List.mem_cons, mem_insertBySimilarityDesc a x rest]
        tauto

/-- The stable sort does not change the set of hits. -/
theorem mem_sortBySimilarityDesc (x : EmbeddingSearchResult) :
    ∀ l : List EmbeddingSearchResult, (x ∈ sortBySimilarityDesc l ↔ x ∈ l)
  | [] => Iff.rfl
  | a :: rest => by
      rw [sortBySimilarityDesc, mem_insertBySimilarityDesc, List.mem_cons,
        mem_sortBySimilarityDesc x rest]

/-- Inserting into a descending-sorted list keeps it descending-sorted. -/
theorem insertBySimilarityDesc_sorted (a : EmbeddingSearchResult) :
    ∀ l : List EmbeddingSearchResult,
      l.Pairwise (fun x y => y.similarity_score ≤ x.similarity_score) →
      (insertBySimilarityDesc a l).Pairwise
        (fun x y => y.similarity_score ≤ x.similarity_score)
  | [], _ => by simp [insertBySimilarityDesc]
  | b :: rest, hl => by
      rw [insertBySimilarityDesc]
      rw [List.pairwise_cons] at hl
      split
      · rename_i hba
        refine List.pairwise_cons.mpr ⟨?_, List.pairwise_cons.mpr hl⟩
        intro x hx
        rcases List.mem_cons.mp hx with rfl | hx
        · exact hba
        · exact le_trans (hl.1 x hx) hba
      · rename_i hba
        refine List.pairwise_cons.mpr ⟨?_, insertBySimilarityDesc_sorted a rest hl.2⟩
        intro x hx
        rcases (mem_insertBySimilarityDesc a x rest).mp hx with rfl | hx
        · exact le_of_lt (lt_of_not_le hba)
        · exact hl.1 x hx

/-- The stable sort produces a list sorted descending by similarity. -/
theorem sortBySimilarityDesc_sorted :
    ∀ l : List EmbeddingSearchResult,
      (sortBySimilarityDesc l).Pairwise
        (fun x y => y.similarity_score ≤ x.similarity_score)
  | [] => List.Pairwise.nil
  | a :: rest =>
      insertBySimilarityDesc_sorted a (sortBySimilarityDesc rest)
        (sortBySimilarityDesc_sorted rest)

/-- Every scanned hit passed the `min_similarity` threshold. -/
theorem mem_scanHits_min_similarity (query : EmbeddingSearchQuery)
    (store : List EmbeddingRecord) (r : EmbeddingSearchResult)
    (hr : r ∈ scanHits query store) :
    query.min_similarity ≤ r.similarity_score := by
  rw [scanHits, List.mem_filterMap] at hr
  obtain ⟨emb, _, hf⟩ := hr
  dsimp only at hf
  split at hf
  · rename_i hge
    cases hf
    exact hge
  · exact absurd hf (by simp)

/-- The stable sort preserves the tie-break invariant: whenever two hits of
the input relate by "equal similarity implies increasing chunk index" in
input order, so do any two hits of the output in output order. -/
theorem insertBySimilarityDesc_stable (a : EmbeddingSearchResult) :
    ∀ l : List EmbeddingSearchResult,
      l.Pairwise (fun x y => x.similarity_score = y.similarity_score →
        x.chunk_index < y.chunk_index) →
      (∀ b ∈ l, a.similarity_score = b.similarity_score →
        a.chunk_index < b.chunk_index) →
      (insertBySimilarityDesc a l).Pairwise
        (fun x y => x.similarity_score = y.similarity_score →
          x.chunk_index < y.chunk_index)
  | [], _, _ => by simp [insertBySimilarityDesc]
  | b :: rest, hl, ha => by
      rw [insertBySimilarityDesc]
      rw [List.pairwise_cons] at hl
      split
      · refine List.pairwise_cons.mpr ⟨?_, List.pairwise_cons.mpr hl⟩
        intro x hx
        exact ha x hx
      · rename_i hba
        refine List.pairwise_cons.mpr
          ⟨?_, insertBySimilarityDesc_stable a rest hl.2
            (fun x hx => ha x (List.mem_cons_of_mem b hx))⟩
        intro x hx heq
        rcases (mem_insertBySimilarityDesc a x rest).mp hx with rfl | hx
        · exact absurd (le_of_eq heq) hba
        · exact hl.1 x hx heq

/-- Stability of the full sort with respect to the tie-break invariant. -/
theorem sortBySimilarityDesc_stable :
    ∀ l : List EmbeddingSearchResult,
      l.Pairwise (fun x y => x.similarity_score = y.similarity_score →
        x.chunk_index < y.chunk_index) →
      (sortBySimilarityDesc l).Pairwise
        (fun x y => x.similarity_score = y.similarity_score →
          x.chunk_index < y.chunk_index)
  | [], _ => List.Pairwise.nil
  | a :: rest, hl => by
      rw [sortBySimilarityDesc]
      rw [List.pairwise_cons] at hl
      exact insertBySimilarityDesc_stable a (sortBySimilarityDesc rest)
        (sortBySimilarityDesc_stable rest hl.2)
        (fun b hb => hl.1 b ((mem_sortBySimilarityDesc b rest).mp hb))

/-- The scan preserves strictly increasing chunk indices from the store. -/
theorem scanHits_pairwise_chunk_index (query : EmbeddingSearchQuery)
    (store : List EmbeddingRecord)
    (h : store.Pairwise (fun e f => e.chunk_index < f.chunk_index)) :
    (scanHits query store).Pairwise
      (fun x y => x.chunk_index < y.chunk_index) := by
  rw [scanHits]
  refine List.pairwise_filterMap.mpr ?_
  refine (h.filter (matchesMongoQuery query)).imp ?_
  intro e f hef x hx y hy
  dsimp only at hx hy
  split at hx
  · rw [Option.mem_some_iff] at hx
    split at hy
    · rw [Option.mem_some_iff] at hy
      subst hx
      subst hy
      exact hef
    · exact absurd hy (by simp)
  · exact absurd hx (by simp)

/-! ## Claim theorems -/

/-- Claim C1: for every search query and every set of stored embeddings,
`search_similar_chunks` returns at most `top_k` results, every returned hit
scores at least `min_similarity`, and the results are sorted by similarity
score in descending order. -/
theorem C1_search_respects_topk_threshold_and_order
    (query : EmbeddingSearchQuery) (store : List EmbeddingRecord) :
    (search_similar_chunks query store).length ≤ query.top_k ∧
    (∀ r ∈ search_similar_chunks query store,
      query.min_similarity ≤ r.similarity_score) ∧
    (search_similar_chunks query store).Pairwise
      (fun x y => y.similarity_score ≤ x.similarity_score) := by
  refine ⟨?_, ?_, ?_⟩
  · rw [search_similar_chunks, List.length_take]
    exact min_le_left _ _
  · intro r hr
    have hmem : r ∈ sortBySimilarityDesc (scanHits query store) :=
      (List.take_sublist _ _).subset hr
    exact mem_scanHits_min_similarity query store r
      ((mem_sortBySimilarityDesc r _).mp hmem)
  · exact List.Pairwise.sublist (List.take_sublist _ _)
      (sortBySimilarityDesc_sorted _)

/-- Claim C2, counterexample: two stored embeddings with identical vectors
(hence equal similarity 1 against the query) whose store order is chunk
index 5 before chunk index 2.  The stable sort keeps the store order, so the
result ranks chunk 5 before chunk 2 — not ascending by chunk index as the
claim states. -/
theorem C2_counterexample_tie_not_by_chunk_index :
    (search_similar_chunks qTie [recTieA, recTieB]).map
      (fun r => (r.chunk_index, r.similarity_score)) = [(5, 1), (2, 1)] := by
  rw [search_similar_chunks, scanHits]
  norm_num [matchesMongoQuery, qTie, recTieA, recTieB, cosine_one_one,
    sortBySimilarityDesc, insertBySimilarityDesc, List.filterMap_cons]

/-- Claim C2, amended: ties are broken by position in the stored embedding
list (Python's sort is stable), not by chunk index as such; when the stored
embeddings are ordered by strictly increasing chunk index — which is how
`generate_embeddings_for_chunks` inserts them — two hits with equal
similarity do appear in ascending chunk-index order, and the ranking is a
deterministic function of the store. -/
theorem C2_amended_stable_tie_break (query : EmbeddingSearchQuery)
    (store : List EmbeddingRecord)
    (h : store.Pairwise (fun e f => e.chunk_index < f.chunk_index)) :
    (search_similar_chunks query store).Pairwise
      (fun x y => x.similarity_score = y.similarity_score →
        x.chunk_index < y.chunk_index) := by
  have h1 := scanHits_pairwise_chunk_index query store h
  have h2 : (scanHits query store).Pairwise
      (fun x y => x.similarity_score = y.similarity_score →
        x.chunk_index < y.chunk_index) := by
    refine h1.imp ?_
    intro x y hlt
    exact fun _ => hlt
  exact List.Pairwise.sublist (List.take_sublist _ _)
    (sortBySimilarityDesc_stable (scanHits query store) h2)

/-- Witness for the amended claim C2, on a two-record store listed in
ascending chunk-index order. -/
theorem C2_amended_stable_tie_break_witness :
    List.Pairwise (fun e f => e.chunk_index < f.chunk_index) [recTieB, recTieA] ∧
    (search_similar_chunks qTie [recTieB, recTieA]).Pairwise
      (fun x y => x.similarity_score = y.similarity_score →
        x.chunk_index < y.chunk_index) := by
  have hpw : List.Pairwise (fun e f => e.chunk_index < f.chunk_index)
      [recTieB, recTieA] := by
    refine List.pairwise_cons.mpr ⟨?_, List.pairwise_singleton _ _⟩
    intro e he
    rw [List.mem_singleton] at he
    subst he
    norm_num [recTieA, recTieB]
  exact ⟨hpw, C2_amended_stable_tie_break qTie [recTieB, recTieA] hpw⟩

/-- Claim C7: cosine similarity as implemented is symmetric, always lands in
the interval [0, 1], evaluates to exactly 1 on a non-zero vector paired with
itself (exact arithmetic), and evaluates to 0 whenever either input is the
zero vector, the division being guarded. -/
theorem C7_cosine_similarity_properties (a b : List ℝ) :
    cosine_similarity a b = cosine_similarity b a ∧
    0 ≤ cosine_similarity a b ∧
    cosine_similarity a b ≤ 1 ∧
    ((∃ x ∈ a, x ≠ 0) → cosine_similarity a a = 1) ∧
    ((∀ x ∈ a, x = 0) → cosine_similarity a b = 0 ∧ cosine_similarity b a = 0) := by
  refine ⟨?_, ?_, ?_, ?_, ?_⟩
  · rw [cosine_similarity_def, cosine_similarity_def,
      congrArg List.sum (List.zipWith_comm_of_comm (fun x y => x * y) mul_comm a b),
      mul_comm (Real.sqrt ((a.map (fun x => x * x)).sum))
        (Real.sqrt ((b.map (fun x => x * x)).sum))]
    exact if_congr or_comm rfl rfl
  · rw [cosine_similarity_def]
    split_ifs
    · exact le_refl 0
    · exact le_max_left 0 _
  · rw [cosine_similarity_def]
    split_ifs
    · exact zero_le_one
    · exact max_le zero_le_one (min_le_left _ _)
  · rintro ⟨x, hx, hxne⟩
    have hpos : 0 < (a.map (fun y => y * y)).sum :=
      lt_of_lt_of_le (mul_self_pos.mpr hxne)
        (List.single_le_sum
          (fun z hz => by
            obtain ⟨w, _, rfl⟩ := List.mem_map.mp hz
            exact mul_self_nonneg w)
          _ (List.mem_map_of_mem (fun y => y * y) hx))
    have hsq : Real.sqrt ((a.map (fun y => y * y)).sum) ≠ 0 :=
      ne_of_gt (Real.sqrt_pos.mpr hpos)
    rw [cosine_similarity_def, List.zipWith_same,
      if_neg (by rw [not_or]; exact ⟨hsq, hsq⟩),
      Real.mul_self_sqrt hpos.le, div_self (ne_of_gt hpos)]
    norm_num
  · intro ha
    have hzero : (a.map (fun y => y * y)).sum = 0 :=
      List.sum_eq_zero (fun z hz => by
        obtain ⟨w, hw, rfl⟩ := List.mem_map.mp hz
        rw [ha w hw, mul_zero])
    constructor
    · rw [cosine_similarity_def, if_pos (Or.inl (by rw [hzero, Real.sqrt_zero]))]
    · rw [cosine_similarity_def, if_pos (Or.inr (by rw [hzero, Real.sqrt_zero]))]

/-- Witness for claim C7 at the concrete vectors [1] and [0]. -/
theorem C7_cosine_similarity_properties_witness :
    (∃ x ∈ [(1 : ℝ)], x ≠ 0) ∧
    cosine_similarity [(1 : ℝ)] [(1 : ℝ)] = 1 ∧
    cosine_similarity [(0 : ℝ)] [(1 : ℝ)] = 0 :=
  ⟨⟨1, List.mem_singleton_self 1, one_ne_zero⟩,
    (C7_cosine_similarity_properties [(1 : ℝ)] [(1 : ℝ)]).2.2.2.1
      ⟨1, List.mem_singleton_self 1, one_ne_zero⟩,
    ((C7_cosine_similarity_properties [(0 : ℝ)] [(1 : ℝ)]).2.2.2.2
      (fun x hx => by rwa [List.mem_singleton] at hx)).1⟩

/-- Propositional reading of the detection filter. -/
theorem isStuck_eq_true_iff (now timeout_minutes : ℤ) (j : Job) :
    isStuck now timeout_minutes j = true ↔
      ((j.status = JobStatus.pending ∨ j.status = JobStatus.running) ∧
        j.updated_at < now - timeout_minutes) := by
  simp [isStuck, Bool.and_eq_true, Bool.or_eq_true, decide_eq_true_eq, beq_iff_eq]

/-- In a store with pairwise distinct ids, two members with the same id are
the same job. -/
theorem job_eq_of_id_eq :
    ∀ jobs : List Job, jobs.Pairwise (fun a b => a.id ≠ b.id) →
      ∀ a b : Job, a ∈ jobs → b ∈ jobs → a.id = b.id → a = b
  | [], _, a, _, ha, _, _ => absurd ha (List.not_mem_nil a)
  | x :: xs, h, a, b, ha, hb, hid => by
      rw [List.pairwise_cons] at h
      rcases List.mem_cons.mp ha with rfl | ha' <;>
        rcases List.mem_cons.mp hb with rfl | hb'
      · rfl
      · exact absurd hid (h.1 b hb')
      · exact absurd hid.symm (h.1 a ha')
      · exact job_eq_of_id_eq xs h.2 a b ha' hb' hid

/-- When the detection query returns nothing, the sweep fails nothing and
leaves both stores unchanged. -/
theorem auto_fail_of_detect_nil (now timeout_minutes : ℤ) (jobs : List Job)
    (summaries : List SummaryRecord)
    (h : detect_stuck_jobs now timeout_minutes jobs = []) :
    auto_fail_stuck_jobs now timeout_minutes jobs summaries = (0, jobs, summaries) := by
  simp [auto_fail_stuck_jobs, h]

/-- The job store written by a sweep: unchanged when nothing was detected,
otherwise the bulk update applied to every job. -/
theorem auto_fail_jobs_eq (now timeout_minutes : ℤ) (jobs : List Job)
    (summaries : List SummaryRecord) :
    (auto_fail_stuck_jobs now timeout_minutes jobs summaries).2.1 =
      if (detect_stuck_jobs now timeout_minutes jobs).isEmpty then jobs
      else jobs.map (failJobUpdate now timeout_minutes
        (detect_stuck_jobs now timeout_minutes jobs)) := by
  rw [auto_fail_stuck_jobs]
  split <;> rfl

/-! Claim theorems for synthesis, monitoring and embedding generation. -/

/-- Claim C3: with non-empty hits, a provider failing with a timeout on
every attempt makes exactly 3 calls, sleeps 2^1 and 2^2 seconds between
them, and ends in the typed timeout error; a persistently rate-limited
provider sleeps 2^2 and 2^3 seconds (2^(attempt+1) after attempt 1 and 2)
and ends in the rate-limit error; a persistent generic provider error
behaves like the timeout case with its own message. -/
theorem C3_retry_backoff_exhaustion (sec : TemplateSection)
    (hits : List RelevantChunk) (provider : ℕ → CompletionResult)
    (hne : hits ≠ []) :
    ((∀ n, provider n = CompletionResult.timeoutError) →
      pass_3_synthesize_section sec hits provider =
        { result := Except.error "OpenAI API timeout after 3 attempts. Please try again later."
          attempts := 3
          sleeps := [2 ^ 1, 2 ^ 2] }) ∧
    ((∀ n, provider n = CompletionResult.rateLimitError) →
      pass_3_synthesize_section sec hits provider =
        { result := Except.error "OpenAI rate limit exceeded. Please wait a few minutes and try again."
          attempts := 3
          sleeps := [2 ^ 2, 2 ^ 3] }) ∧
    (∀ msg, (∀ n, provider n = CompletionResult.apiError msg) →
      pass_3_synthesize_section sec hits provider =
        { result := Except.error ("OpenAI API error: " ++ msg)
          attempts := 3
          sleeps := [2 ^ 1, 2 ^ 2] }) := by
  obtain ⟨x, xs, rfl⟩ : ∃ x xs, hits = x :: xs := by
    cases hits with
    | nil => exact absurd rfl hne
    | cons x xs => exact ⟨x, xs, rfl⟩
  have hmsg : "OpenAI API timeout after " ++ toString (3 : ℕ) ++ " attempts. Please try again later." =
      "OpenAI API timeout after 3 attempts. Please try again later." := rfl
  refine ⟨?_, ?_, ?_⟩
  · intro h
    rw [pass_3_synthesize_section]
    simp [List.isEmpty_cons, MAX_RETRIES, RETRY_DELAY_BASE, synthRetryLoop, h, hmsg]
  · intro h
    rw [pass_3_synthesize_section]
    simp [List.isEmpty_cons, MAX_RETRIES, RETRY_DELAY_BASE, synthRetryLoop, h, hmsg]
  · intro msg h
    rw [pass_3_synthesize_section]
    simp [List.isEmpty_cons, MAX_RETRIES, RETRY_DELAY_BASE, synthRetryLoop, h, hmsg]

/-- Witness for claim C3 with one concrete hit and the three persistent
failure providers. -/
theorem C3_retry_backoff_exhaustion_witness :
    ([hitExample] ≠ ([] : List RelevantChunk)) ∧
    pass_3_synthesize_section secExample [hitExample]
        (fun _ => CompletionResult.timeoutError) =
      { result := Except.error "OpenAI API timeout after 3 attempts. Please try again later."
        attempts := 3
        sleeps := [2 ^ 1, 2 ^ 2] } ∧
    pass_3_synthesize_section secExample [hitExample]
        (fun _ => CompletionResult.rateLimitError) =
      { result := Except.error "OpenAI rate limit exceeded. Please wait a few minutes and try again."
        attempts := 3
        sleeps := [2 ^ 2, 2 ^ 3] } ∧
    pass_3_synthesize_section secExample [hitExample]
        (fun _ => CompletionResult.apiError "service unavailable") =
      { result := Except.error ("OpenAI API error: " ++ "service unavailable")
        attempts := 3
        sleeps := [2 ^ 1, 2 ^ 2] } :=
  ⟨List.cons_ne_nil hitExample [],
    (C3_retry_backoff_exhaustion secExample [hitExample]
      (fun _ => CompletionResult.timeoutError)
      (List.cons_ne_nil hitExample [])).1 (fun _ => rfl),
    (C3_retry_backoff_exhaustion secExample [hitExample]
      (fun _ => CompletionResult.rateLimitError)
      (List.cons_ne_nil hitExample [])).2.1 (fun _ => rfl),
    (C3_retry_backoff_exhaustion secExample [hitExample]
      (fun _ => CompletionResult.apiError "service unavailable")
      (List.cons_ne_nil hitExample [])).2.2 "service unavailable" (fun _ => rfl)⟩

/-- Claim C4: with an empty hit list, section synthesis returns exactly the
string "No relevant content found for section: <title>", makes zero
completion-provider calls, and this is a normal return, not an error. -/
theorem C4_empty_hits_fallback (sec : TemplateSection)
    (provider : ℕ → CompletionResult) :
    pass_3_synthesize_section sec [] provider =
      { result := Except.ok ("No relevant content found for section: " ++ sec.title)
        attempts := 0
        sleeps := [] } := rfl

/-- Claim C8, counterexample: at sweep time 60 with a 60-minute timeout, a
running job whose `updated_at` is exactly 60 minutes old (that is, at least
`timeout_minutes` old, as the claim requires) is NOT flagged, because the
query uses a strict `$lt` on `now - timeout`. -/
theorem C8_counterexample_boundary_not_flagged :
    detect_stuck_jobs 60 60 [jobSixty] = [] ∧
    jobSixty.status = JobStatus.running ∧
    jobSixty.updated_at ≤ 60 - 60 := by decide

/-- Claim C8, amended: the sweep flags exactly those jobs (among the first
100 matches — the detection query caps its result list at 100) whose status
is Pending or Running and whose `updated_at` is STRICTLY older than
`now - timeout_minutes`; a job updated 59 minutes ago is not flagged at a
60-minute timeout, and neither is one updated exactly 60 minutes ago. -/
theorem C8_amended_detect_strict (now timeout_minutes : ℤ) (jobs : List Job)
    (hlen : (jobs.filter (isStuck now timeout_minutes)).length ≤ 100)
    (hids : jobs.Pairwise (fun a b => a.id ≠ b.id)) :
    ∀ j ∈ jobs,
      (j.id ∈ detect_stuck_jobs now timeout_minutes jobs ↔
        ((j.status = JobStatus.pending ∨ j.status = JobStatus.running) ∧
          j.updated_at < now - timeout_minutes)) := by
  intro j hj
  rw [detect_stuck_jobs, List.take_of_length_le hlen]
  constructor
  · intro hmem
    rw [List.mem_map] at hmem
    obtain ⟨j', hj', hid⟩ := hmem
    rw [List.mem_filter] at hj'
    have heq : j' = j := job_eq_of_id_eq jobs hids j' j hj'.1 hj hid
    exact (isStuck_eq_true_iff now timeout_minutes j).mp (heq ▸ hj'.2)
  · intro hcond
    rw [List.mem_map]
    exact ⟨j, List.mem_filter.mpr
      ⟨hj, (isStuck_eq_true_iff now timeout_minutes j).mpr hcond⟩, rfl⟩

/-- Witness for the amended claim C8 on a two-job store. -/
theorem C8_amended_detect_strict_witness :
    ((jobsMixed.filter (isStuck 100 60)).length ≤ 100) ∧
    jobsMixed.Pairwise (fun a b => a.id ≠ b.id) ∧
    (jobSixty.id ∈ detect_stuck_jobs 100 60 jobsMixed ↔
      ((jobSixty.status = JobStatus.pending ∨ jobSixty.status = JobStatus.running) ∧
        jobSixty.updated_at < 100 - 60)) :=
  ⟨by decide, by decide,
    C8_amended_detect_strict 100 60 jobsMixed (by decide) (by decide)
      jobSixty (by decide)⟩

set_option maxRecDepth 100000 in
/-- Claim C9, counterexample: with 101 stale running jobs, the first sweep
fails only 100 of them (the detection query caps at 100), so an immediately
repeated sweep still finds and fails the remaining one: the second call
returns 1, not 0. -/
theorem C9_counterexample_cap_breaks_idempotence :
    firstSweep101.1 = 100 ∧
    (auto_fail_stuck_jobs 200 60 firstSweep101.2.1 firstSweep101.2.2).1 = 1 := by
  decide

/-- Claim C9, amended: provided the first sweep's detection was not
truncated (at most 100 jobs match the stuck filter), running the sweep twice
in immediate succession yields failedCount = 0 on the second call: every job
the first sweep failed has status Failed, which is outside the detectable
set {Pending, Running}, and every other job already failed the filter. -/
theorem C9_amended_second_sweep_zero (now timeout_minutes : ℤ)
    (jobs : List Job) (summaries : List SummaryRecord)
    (hlen : (jobs.filter (isStuck now timeout_minutes)).length ≤ 100) :
    (auto_fail_stuck_jobs now timeout_minutes
      (auto_fail_stuck_jobs now timeout_minutes jobs summaries).2.1
      (auto_fail_stuck_jobs now timeout_minutes jobs summaries).2.2).1 = 0 := by
  by_cases hid : (detect_stuck_jobs now timeout_minutes jobs).isEmpty
  · have hnil : detect_stuck_jobs now timeout_minutes jobs = [] :=
      List.isEmpty_iff.mp hid
    rw [auto_fail_of_detect_nil now timeout_minutes jobs summaries hnil]
    exact congrArg Prod.fst (auto_fail_of_detect_nil now timeout_minutes jobs summaries hnil)
  · rw [auto_fail_jobs_eq, if_neg hid]
    have hnil2 : detect_stuck_jobs now timeout_minutes
        (jobs.map (failJobUpdate now timeout_minutes
          (detect_stuck_jobs now timeout_minutes jobs))) = [] := by
      rw [detect_stuck_jobs]
      have hfil : (jobs.map (failJobUpdate now timeout_minutes
          (detect_stuck_jobs now timeout_minutes jobs))).filter
            (isStuck now timeout_minutes) = [] := by
        rw [List.filter_eq_nil_iff]
        intro j hj
        rw [List.mem_map] at hj
        obtain ⟨j0, hj0, rfl⟩ := hj
        rw [failJobUpdate]
        by_cases hin : (detect_stuck_jobs now timeout_minutes jobs).contains j0.id
        · rw [if_pos hin]
          simp [isStuck, beq_iff_eq]
        · rw [if_neg hin]
          intro hstuck
          apply hin
          rw [detect_stuck_jobs, List.take_of_length_le hlen]
          have : j0.id ∈ (jobs.filter (isStuck now timeout_minutes)).map
              (fun j => j.id) :=
            List.mem_map.mpr ⟨j0, List.mem_filter.mpr ⟨hj0, hstuck⟩, rfl⟩
          simpa using this
      rw [hfil]
      rfl
    exact congrArg Prod.fst (auto_fail_of_detect_nil now timeout_minutes _ _ hnil2)

/-- Witness for the amended claim C9 on a one-job store. -/
theorem C9_amended_second_sweep_zero_witness :
    (([jobSixty].filter (isStuck 200 60)).length ≤ 100) ∧
    (auto_fail_stuck_jobs 200 60
      (auto_fail_stuck_jobs 200 60 [jobSixty] []).2.1
      (auto_fail_stuck_jobs 200 60 [jobSixty] []).2.2).1 = 0 :=
  ⟨by decide, C9_amended_second_sweep_zero 200 60 [jobSixty] [] (by decide)⟩

/-- Claim C10: calling `generate_embeddings_for_chunks` with an empty chunk
list raises ValueError immediately — zero provider calls and zero database
writes — rather than returning an empty id list or a count of 0. -/
theorem C10_empty_chunks_raises (provider : List String → List (List ℝ))
    (batch_size : ℕ) :
    generate_embeddings_for_chunks provider [] batch_size =
      { result := Except.error "Cannot generate embeddings for empty chunks list"
        api_calls := 0
        inserted := 0 } := rfl

/-- Sum of word counts of the empty chunk list. -/
theorem sumWordCounts_nil : sumWordCounts [] = 0 := rfl

/-- Sum of word counts of a cons. -/
theorem sumWordCounts_cons (c : DocumentChunk) (l : List DocumentChunk) :
    sumWordCounts (c :: l) = c.word_count + sumWordCounts l := by
  simp [sumWordCounts]

/-- A chunk built from its own word list carries that list's length as its
word count: when the length is nonzero the constructor keeps it, and when it
is zero the joined text is empty and recounting also gives zero. -/
theorem mkDocumentChunk_word_count (ws : List String) (chunk_index page : ℕ)
    (start_char end_char : ℕ) (heading : Option String) :
    (mkDocumentChunk (String.intercalate " " ws) chunk_index page start_char
      end_char heading ws.length).word_count = ws.length := by
  by_cases h : ws.length = 0
  · have hnil : ws = [] := List.length_eq_zero.mp h
    subst hnil
    rfl
  · simp [mkDocumentChunk, h]

/-- The chunk index stored by the constructor. -/
theorem mkDocumentChunk_chunk_index (text : String) (chunk_index page : ℕ)
    (start_char end_char : ℕ) (heading : Option String) (word_count : ℕ) :
    (mkDocumentChunk text chunk_index page start_char end_char heading
      word_count).chunk_index = chunk_index := rfl

/-- The page number stored by the constructor. -/
theorem mkDocumentChunk_page_number (text : String) (chunk_index page : ℕ)
    (start_char end_char : ℕ) (heading : Option String) (word_count : ℕ) :
    (mkDocumentChunk text chunk_index page start_char end_char heading
      word_count).page_number = page := rfl

/-- The chunk indices produced by the loop are consecutive, starting at the
loop's initial chunk index. -/
theorem chunkLoop_map_chunk_index (params : ChunkParams) (all_words : List String)
    (pp : List (ℕ × ℕ × ℕ)) (hd : List (String × ℕ)) (tp : ℕ) :
    ∀ fuel word_index chunk_index : ℕ,
      (chunkLoop params all_words pp hd tp fuel word_index chunk_index).map
          (fun c => c.chunk_index) =
        List.range' chunk_index
          (chunkLoop params all_words pp hd tp fuel word_index chunk_index).length := by
  intro fuel
  induction fuel with
  | zero => intro wi ci; rfl
  | succ n ih =>
      intro wi ci
      simp only [chunkLoop]
      split_ifs with h1 h2 h3
      · rfl
      · simp only [List.map_cons, List.length_cons, List.range'_succ,
          mkDocumentChunk_chunk_index, ih]
      · simp only [List.map_cons, List.length_cons, List.range'_succ,
          mkDocumentChunk_chunk_index, ih]
      · rfl

/-- Every chunk the loop emits has its page number clamped into
[1, total_pages], provided there is at least one page. -/
theorem chunkLoop_page_number_bounds (params : ChunkParams)
    (all_words : List String) (pp : List (ℕ × ℕ × ℕ)) (hd : List (String × ℕ))
    (tp : ℕ) (htp : 1 ≤ tp) :
    ∀ fuel word_index chunk_index : ℕ, ∀ c,
      c ∈ chunkLoop params all_words pp hd tp fuel word_index chunk_index →
      1 ≤ c.page_number ∧ c.page_number ≤ tp := by
  intro fuel
  induction fuel with
  | zero => intro wi ci c hc; exact absurd hc (List.not_mem_nil c)
  | succ n ih =>
      intro wi ci c hc
      simp only [chunkLoop] at hc
      split_ifs at hc with h1 h2 h3
      · exact absurd hc (List.not_mem_nil c)
      · rcases List.mem_cons.mp hc with rfl | hc'
        · rw [mkDocumentChunk_page_number]
          exact ⟨le_max_left 1 _, max_le htp (min_le_right _ _)⟩
        · exact ih _ _ c hc'
      · rcases List.mem_cons.mp hc with rfl | hc'
        · rw [mkDocumentChunk_page_number]
          exact ⟨le_max_left 1 _, max_le htp (min_le_right _ _)⟩
        · exact ih _ _ c hc'
      · exact absurd hc (List.not_mem_nil c)

/-- Every chunk the loop emits has a strictly positive word count, provided
the window size is positive. -/
theorem chunkLoop_word_count_pos (params : ChunkParams)
    (all_words : List String) (pp : List (ℕ × ℕ × ℕ)) (hd : List (String × ℕ))
    (tp : ℕ) (hcs : 0 < params.chunk_size) :
    ∀ fuel word_index chunk_index : ℕ, ∀ c,
      c ∈ chunkLoop params all_words pp hd tp fuel word_index chunk_index →
      0 < c.word_count := by
  intro fuel
  induction fuel with
  | zero => intro wi ci c hc; exact absurd hc (List.not_mem_nil c)
  | succ n ih =>
      intro wi ci c hc
      simp only [chunkLoop] at hc
      split_ifs at hc with h1 h2 h3
      · exact absurd hc (List.not_mem_nil c)
      · rcases List.mem_cons.mp hc with rfl | hc'
        · rw [mkDocumentChunk_word_count]
          have hlen : ((all_words.drop wi).take params.chunk_size).length =
              min params.chunk_size (all_words.length - wi) := by
            simp [List.length_take, List.length_drop]
          omega
        · exact ih _ _ c hc'
      · rcases List.mem_cons.mp hc with rfl | hc'
        · rw [mkDocumentChunk_word_count]
          have hlen : ((all_words.drop wi).take params.chunk_size).length =
              min params.chunk_size (all_words.length - wi) := by
            simp [List.length_take, List.length_drop]
          omega
        · exact ih _ _ c hc'
      · exact absurd hc (List.not_mem_nil c)

/-- Lower-bound invariant for the loop: past the first chunk, the words from
`word_index` on are covered up to the `overlap` words the previous chunk
already contains, provided `min_chunk_size ≤ overlap + 1` (so a dropped
trailing window lies inside the previous chunk's overlap) and
`overlap < chunk_size` (so the loop advances). -/
theorem chunkLoop_sum_ge (params : ChunkParams) (all_words : List String)
    (pp : List (ℕ × ℕ × ℕ)) (hd : List (String × ℕ)) (tp : ℕ)
    (hmin : params.min_chunk_size ≤ params.overlap + 1)
    (hov : params.overlap < params.chunk_size) :
    ∀ fuel word_index chunk_index : ℕ, 0 < word_index →
      all_words.length ≤ word_index + fuel →
      all_words.length ≤
        sumWordCounts (chunkLoop params all_words pp hd tp fuel word_index chunk_index) +
          word_index + params.overlap := by
  intro fuel
  induction fuel with
  | zero =>
      intro wi ci hwi hle
      rw [show chunkLoop params all_words pp hd tp 0 wi ci = [] from rfl,
        sumWordCounts_nil]
      omega
  | succ n ih =>
      intro wi ci hwi hle
      simp only [chunkLoop]
      split_ifs with h1 h2 h3
      · -- trailing window dropped: it is smaller than min_chunk_size, hence
        -- no longer than the overlap already covered
        rw [sumWordCounts_nil]
        have hlen : ((all_words.drop wi).take params.chunk_size).length =
            min params.chunk_size (all_words.length - wi) := by
          simp [List.length_take, List.length_drop]
        have h2' := h2.1
        rw [hlen] at h2'
        omega
      · -- overlap step: the emitted chunk has exactly chunk_size words
        rw [sumWordCounts_cons, mkDocumentChunk_word_count]
        have hlen : ((all_words.drop wi).take params.chunk_size).length =
            min params.chunk_size (all_words.length - wi) := by
          simp [List.length_take, List.length_drop]
        have hrec := ih (wi + (params.chunk_size - params.overlap)) (ci + 1)
          (by omega) (by omega)
        omega
      · -- full step
        rw [sumWordCounts_cons, mkDocumentChunk_word_count]
        have hlen : ((all_words.drop wi).take params.chunk_size).length =
            min params.chunk_size (all_words.length - wi) := by
          simp [List.length_take, List.length_drop]
        have hrec := ih (wi + params.chunk_size) (ci + 1) (by omega) (by omega)
        omega
      · rw [sumWordCounts_nil]
        omega

/-- Lower bound at the top of the loop: starting at word 0 every word is
covered, under the same side conditions. -/
theorem chunkLoop_sum_ge_top (params : ChunkParams) (all_words : List String)
    (pp : List (ℕ × ℕ × ℕ)) (hd : List (String × ℕ)) (tp : ℕ)
    (hmin : params.min_chunk_size ≤ params.overlap + 1)
    (hov : params.overlap < params.chunk_size) :
    all_words.length ≤
      sumWordCounts (chunkLoop params all_words pp hd tp (all_words.length + 1) 0 0) := by
  by_cases h0 : all_words.length = 0
  · have h1 : all_words.length + 1 = 0 + 1 := by omega
    rw [h1]
    simp only [chunkLoop]
    rw [if_neg (by omega : ¬ (0 < all_words.length)), sumWordCounts_nil]
    omega
  · simp only [chunkLoop]
    rw [if_pos (by omega : 0 < all_words.length)]
    rw [if_neg (fun h => Nat.lt_irrefl 0 h.2)]
    rw [sumWordCounts_cons, mkDocumentChunk_word_count]
    have hlen : ((all_words.drop 0).take params.chunk_size).length =
        min params.chunk_size (all_words.length - 0) := by
      simp [List.length_take, List.length_drop]
    by_cases h3 : 0 < params.overlap ∧ 0 + params.chunk_size < all_words.length
    · rw [if_pos h3]
      have hrec := chunkLoop_sum_ge params all_words pp hd tp hmin hov
        all_words.length (0 + (params.chunk_size - params.overlap)) (0 + 1)
        (by omega) (by omega)
      omega
    · rw [if_neg h3]
      by_cases hx : all_words.length ≤ 0 + params.chunk_size
      · omega
      · have hrec := chunkLoop_sum_ge params all_words pp hd tp hmin hov
          all_words.length (0 + params.chunk_size) (0 + 1) (by omega) (by omega)
        have hov0 : params.overlap = 0 := by
          rcases not_and_or.mp h3 with h | h
          · omega
          · omega
        omega

/-- Upper-bound invariant for the loop: when the overlap is at most half the
window, each word is covered by at most two chunks. -/
theorem chunkLoop_sum_le (params : ChunkParams) (all_words : List String)
    (pp : List (ℕ × ℕ × ℕ)) (hd : List (String × ℕ)) (tp : ℕ)
    (hov2 : 2 * params.overlap ≤ params.chunk_size) :
    ∀ fuel word_index chunk_index : ℕ,
      sumWordCounts (chunkLoop params all_words pp hd tp fuel word_index chunk_index) ≤
        2 * (all_words.length - word_index) := by
  intro fuel
  induction fuel with
  | zero =>
      intro wi ci
      rw [show chunkLoop params all_words pp hd tp 0 wi ci = [] from rfl,
        sumWordCounts_nil]
      omega
  | succ n ih =>
      intro wi ci
      simp only [chunkLoop]
      split_ifs with h1 h2 h3
      · rw [sumWordCounts_nil]; omega
      · rw [sumWordCounts_cons, mkDocumentChunk_word_count]
        have hlen : ((all_words.drop wi).take params.chunk_size).length =
            min params.chunk_size (all_words.length - wi) := by
          simp [List.length_take, List.length_drop]
        have hrec := ih (wi + (params.chunk_size - params.overlap)) (ci + 1)
        omega
      · rw [sumWordCounts_cons, mkDocumentChunk_word_count]
        have hlen : ((all_words.drop wi).take params.chunk_size).length =
            min params.chunk_size (all_words.length - wi) := by
          simp [List.length_take, List.length_drop]
        have hrec := ih (wi + params.chunk_size) (ci + 1)
        omega
      · rw [sumWordCounts_nil]; omega

/-- Claim C5: for every extracted document and every chunking strategy whose
overlap is smaller than the window (the loop advances; with
`overlap ≥ chunk_size > 0` the Python loop does not terminate), the chunk
list has indices exactly 0..N-1 in order with no gaps, every chunk's page
number lies in [1, total_pages], and every chunk's word count is strictly
positive.  The page hypothesis records the extraction invariant that a
document with at least one word has at least one page (its full text is the
concatenation of the page texts and `total_pages` counts the pages). -/
theorem C5_chunk_list_invariants (params : ChunkParams)
    (headings : List (String × ℕ)) (extracted : ExtractedData)
    (hov : params.overlap < params.chunk_size)
    (hpg : pySplit extracted.full_text ≠ [] → 1 ≤ extracted.total_pages) :
    ((create_semantic_chunks params headings extracted).map (fun c => c.chunk_index) =
      List.range (create_semantic_chunks params headings extracted).length) ∧
    (∀ c ∈ create_semantic_chunks params headings extracted,
      (1 ≤ c.page_number ∧ c.page_number ≤ extracted.total_pages) ∧
        0 < c.word_count) := by
  constructor
  · rw [List.range_eq_range']
    simp only [create_semantic_chunks]
    exact chunkLoop_map_chunk_index params (pySplit extracted.full_text)
      (build_page_positions extracted.pages) headings extracted.total_pages
      ((pySplit extracted.full_text).length + 1) 0 0
  · intro c hc
    by_cases hne : pySplit extracted.full_text = []
    · exfalso
      simp [create_semantic_chunks, hne, chunkLoop] at hc
    · have htp := hpg hne
      simp only [create_semantic_chunks] at hc
      exact ⟨chunkLoop_page_number_bounds params (pySplit extracted.full_text)
          (build_page_positions extracted.pages) headings extracted.total_pages
          htp _ _ _ c hc,
        chunkLoop_word_count_pos params (pySplit extracted.full_text)
          (build_page_positions extracted.pages) headings extracted.total_pages
          (by omega) _ _ _ c hc⟩

/-- Witness for claim C5 on a 12-word two-page document with window 5,
overlap 2, minimum 3. -/
theorem C5_chunk_list_invariants_witness :
    ((⟨5, 2, 3⟩ : ChunkParams).overlap < (⟨5, 2, 3⟩ : ChunkParams).chunk_size) ∧
    ((create_semantic_chunks ⟨5, 2, 3⟩ [] docTwoPages).map (fun c => c.chunk_index) =
      List.range (create_semantic_chunks ⟨5, 2, 3⟩ [] docTwoPages).length) :=
  ⟨by decide,
    (C5_chunk_list_invariants ⟨5, 2, 3⟩ [] docTwoPages (by decide)
      (fun _ => by decide)).1⟩

/-- Claim C6, counterexample.  First input: 6 words, window 5, overlap 0,
minimum 3 (overlap ≤ window): the trailing 1-word window is dropped, so the
chunks cover 5 of 6 words — the claimed lower bound fails.  Second input:
10 words, window 4, overlap 3, minimum 1 (overlap ≤ window): the chunks
carry 28 words against the claimed cap of 2 × 10 = 20 — the upper bound
fails. -/
theorem C6_counterexample_coverage_bounds :
    (sumWordCounts (create_semantic_chunks ⟨5, 0, 3⟩ [] docSixWords) = 5 ∧
      (pySplit docSixWords.full_text).length = 6) ∧
    (sumWordCounts (create_semantic_chunks ⟨4, 3, 1⟩ [] docTenWords) = 28 ∧
      (pySplit docTenWords.full_text).length = 10) := by decide

/-- Claim C6, amended: the coverage bounds hold under the side conditions
the code actually needs.  Lower bound: if `min_chunk_words ≤ overlap + 1`
(a dropped trailing window fits inside the previous chunk's overlap), no
word is lost, so the chunk word counts sum to at least the document's word
count.  Upper bound: if `2 * overlap ≤ chunk_size` (the step is at least
half the window), every word lies in at most two windows, so the sum is at
most twice the document's word count.  As stated — with only
`overlap ≤ chunk_size` — both bounds fail. -/
theorem C6_amended_coverage_bounds (params : ChunkParams)
    (headings : List (String × ℕ)) (extracted : ExtractedData)
    (hcs : 0 < params.chunk_size)
    (hmin : params.min_chunk_size ≤ params.overlap + 1)
    (hov2 : 2 * params.overlap ≤ params.chunk_size) :
    (pySplit extracted.full_text).length ≤
      sumWordCounts (create_semantic_chunks params headings extracted) ∧
    sumWordCounts (create_semantic_chunks params headings extracted) ≤
      2 * (pySplit extracted.full_text).length := by
  have hov : params.overlap < params.chunk_size := by omega
  constructor
  · simp only [create_semantic_chunks]
    exact chunkLoop_sum_ge_top params (pySplit extracted.full_text)
      (build_page_positions extracted.pages) headings extracted.total_pages
      hmin hov
  · simp only [create_semantic_chunks]
    have h := chunkLoop_sum_le params (pySplit extracted.full_text)
      (build_page_positions extracted.pages) headings extracted.total_pages
      hov2 ((pySplit extracted.full_text).length + 1) 0 0
    omega

/-- Witness for the amended claim C6 on a 6-word document with window 4,
overlap 1, minimum 2. -/
theorem C6_amended_coverage_bounds_witness :
    (0 < (⟨4, 1, 2⟩ : ChunkParams).chunk_size ∧
      (⟨4, 1, 2⟩ : ChunkParams).min_chunk_size ≤ (⟨4, 1, 2⟩ : ChunkParams).overlap + 1 ∧
      2 * (⟨4, 1, 2⟩ : ChunkParams).overlap ≤ (⟨4, 1, 2⟩ : ChunkParams).chunk_size) ∧
    ((pySplit docSixWords.full_text).length ≤
      sumWordCounts (create_semantic_chunks ⟨4, 1, 2⟩ [] docSixWords) ∧
    sumWordCounts (create_semantic_chunks ⟨4, 1, 2⟩ [] docSixWords) ≤
      2 * (pySplit docSixWords.full_text).length) :=
  ⟨by decide,
    C6_amended_coverage_bounds ⟨4, 1, 2⟩ [] docSixWords (by decide) (by decide)
      (by decide)⟩
